import Mathlib

/-!
Verification of the fleet snapshot collector and multi-tier cache layer
(`src/backend/services/collector.py` and `src/backend/main.py`).

The Python source is shallowly embedded: dictionaries become structures,
`time.time()` becomes an explicit time argument, the panel-client calls and
the distributed cache become explicit oracle arguments (`Except` for calls
that may raise, `Option` for a lookup that may miss or fail), and the
per-node mutable state dict becomes explicit state passing.
-/

namespace SubGen

/-- A node descriptor as read from the registry: a dict with optional
`id` and `name` entries (`node.get("id")`, `node.get("name")`). -/
structure Node where
  id : Option String
  name : Option String
deriving DecidableEq

/-- The snapshot dict built by `SnapshotCollector._collect_node_snapshot`.
`timestamp` is the `time.time()` value recorded at collection;
`error` is present only on the exception path. -/
structure Snap where
  name : String
  node_id : Option String
  available : Bool
  xray_running : Bool
  cpu : Nat
  online_clients : Nat
  traffic_total : Nat
  timestamp : Nat
  error : Option String
deriving DecidableEq

/-- JSON rendering of a boolean, as `json.dumps` renders it. -/
def jsonBool (b : Bool) : String := if b then "true" else "false"

/-- JSON rendering of a string (escaping is irrelevant at this abstraction). -/
def jsonStr (s : String) : String := "\"" ++ s ++ "\""

/-- JSON rendering of an optional string (`None` becomes `null`). -/
def jsonOptStr : Option String → String
  | none => "null"
  | some s => jsonStr s

/-- `json.dumps(snapshot, sort_keys=True, ensure_ascii=False)` over the
snapshot dict, keys in sorted order
(`available, cpu, [error,] name, node_id, online_clients, timestamp,
traffic_total, xray_running`), the string `_poll_node` uses as
`curr_hash`.  Note that the `timestamp` entry is part of the dump. -/
def fingerprint (s : Snap) : String :=
  "\x7b" ++ "\"available\": " ++ jsonBool s.available
  ++ ", \"cpu\": " ++ toString s.cpu
  ++ (match s.error with
      | none => ""
      | some e => ", \"error\": " ++ jsonStr e)
  ++ ", \"name\": " ++ jsonStr s.name
  ++ ", \"node_id\": " ++ jsonOptStr s.node_id
  ++ ", \"online_clients\": " ++ toString s.online_clients
  ++ ", \"timestamp\": " ++ toString s.timestamp
  ++ ", \"traffic_total\": " ++ toString s.traffic_total
  ++ ", \"xray_running\": " ++ jsonBool s.xray_running
  ++ "\x7d"

/-- The collector configuration, normalized exactly as
`SnapshotCollector.__init__` normalizes its keyword arguments. -/
structure Config where
  base_interval_sec : Nat
  max_interval_sec : Nat
  min_interval_sec : Nat
  max_parallel_polls : Nat
deriving DecidableEq

/-- `SnapshotCollector.__init__`: `base = max(1, base_interval_sec)`,
`max = max(base, max_interval_sec)`, `min = max(1, min_interval_sec)`,
`parallel = max(1, max_parallel_polls)`. -/
def mkConfig (base maxI minI par : Nat) : Config :=
  let b := max 1 base
  { base_interval_sec := b
    max_interval_sec := max b maxI
    min_interval_sec := max 1 minI
    max_parallel_polls := max 1 par }

/-- The constructor defaults: `base 5, max 60, min 3, parallel 8`. -/
def defaultConfig : Config := mkConfig 5 60 3 8

/-- One entry of `SnapshotCollector._node_state`. -/
structure NodeState where
  next_poll : Nat
  interval : Nat
  failures : Nat
  stable_cycles : Nat
  last_hash : String
deriving DecidableEq

/-- The dict `_run` installs via `setdefault` on first sight of a node key. -/
def initState (cfg : Config) : NodeState :=
  { next_poll := 0
    interval := cfg.base_interval_sec
    failures := 0
    stable_cycles := 0
    last_hash := "" }

/-- `stable_boost = min(4, 1 + state["stable_cycles"] // 3)` in `_poll_node`. -/
def stableBoost (stable_cycles : Nat) : Nat := min 4 (1 + stable_cycles / 3)

/-- The `snapshot.get("available")` branch of `_poll_node`: fingerprint the
snapshot, detect change, update `stable_cycles`, `last_hash`, `failures`,
and set the stability-boosted interval.  The returned boolean is whether a
delta broadcast was emitted (`changed`). -/
def successUpdate (cfg : Config) (now : Nat) (st : NodeState) (snap : Snap) :
    NodeState × Bool :=
  let curr_hash := fingerprint snap
  let changed : Bool := curr_hash != st.last_hash
  let stable := if changed then 0 else st.stable_cycles + 1
  let boost := stableBoost stable
  let interval :=
    min cfg.max_interval_sec (max cfg.min_interval_sec (cfg.base_interval_sec * boost))
  ({ next_poll := now + interval
     interval := interval
     failures := 0
     stable_cycles := stable
     last_hash := curr_hash }, changed)

/-- The failure branch of `_poll_node`: increment `failures`, compute
`backoff = base * 2 ** min(failures, 4)`, set
`interval = min(max_interval_sec, backoff)` and zero `stable_cycles`. -/
def failureUpdate (cfg : Config) (now : Nat) (st : NodeState) : NodeState :=
  let failures := st.failures + 1
  let backoff := cfg.base_interval_sec * 2 ^ min failures 4
  let interval := min cfg.max_interval_sec backoff
  { next_poll := now + interval
    interval := interval
    failures := failures
    stable_cycles := 0
    last_hash := st.last_hash }

/-- The state update of `SnapshotCollector._poll_node` for one completed
poll, dispatching on `snapshot.get("available")`.  The boolean records
whether `_broadcast_delta` was awaited. -/
def pollStep (cfg : Config) (now : Nat) (st : NodeState) (snap : Snap) :
    NodeState × Bool :=
  if snap.available then successUpdate cfg now st snap
  else (failureUpdate cfg now st, false)

/-- A sequence of polls of one node: each poll result feeds the state of the
next, recording after-states and broadcast flags. -/
def pollRun (cfg : Config) (now : Nat) (st : NodeState) : List Snap → List (NodeState × Bool)
  | [] => []
  | s :: rest =>
    let r := pollStep cfg now st s
    r :: pollRun cfg now r.1 rest

/-- Observable-content equality of two snapshots: the fields the claim set
calls observable (identity, availability, xray flag, cpu, online-client
count, traffic total) — everything except `timestamp`, `error`. -/
def obsEq (a b : Snap) : Bool :=
  a.name == b.name && a.node_id == b.node_id && a.available == b.available
    && a.xray_running == b.xray_running && a.cpu == b.cpu
    && a.online_clients == b.online_clients && a.traffic_total == b.traffic_total

/-- The answer of `xui_monitor.get_server_status`, typed: `available`,
`(status.get("xray") or {}).get("running", False)` and
`(status.get("system") or {}).get("cpu", 0)` become plain fields. -/
structure StatusResp where
  available : Bool
  xray_running : Bool
  cpu : Nat

/-- The answer of `xui_monitor.get_online_clients`:
the `online_clients` list (only its length is used). -/
structure OnlineResp where
  online_clients : List String

/-- The answer of `xui_monitor.get_traffic`: the `total` entry of each
traffic item (`none` for a missing or null total, read as 0). -/
structure TrafficResp where
  totals : List (Option Nat)

/-- The snapshot built on the exception path of `_collect_node_snapshot`. -/
def errorSnapshot (node : Node) (now : Nat) (e : String) : Snap :=
  { name := node.name.getD "unknown"
    node_id := node.id
    available := false
    xray_running := false
    cpu := 0
    online_clients := 0
    traffic_total := 0
    timestamp := now
    error := some e }

/-- `SnapshotCollector._collect_node_snapshot`: the three panel-client calls
are oracles that either answer or raise (`Except.error` carries `str(exc)`);
the first raise is caught by the enclosing `try` and turned into an
unavailable snapshot carrying the message. -/
def collectNodeSnapshot (node : Node) (now : Nat)
    (status : Except String StatusResp)
    (online : Except String OnlineResp)
    (traffic : Except String TrafficResp) : Snap :=
  match status with
  | .error e => errorSnapshot node now e
  | .ok st =>
    match online with
    | .error e => errorSnapshot node now e
    | .ok onl =>
      match traffic with
      | .error e => errorSnapshot node now e
      | .ok tr =>
        { name := node.name.getD "unknown"
          node_id := node.id
          available := st.available
          xray_running := st.xray_running
          cpu := st.cpu
          online_clients := onl.online_clients.length
          traffic_total := (tr.totals.map (fun v => v.getD 0)).sum
          timestamp := now
          error := none }

/-- `SnapshotCollector._latest`: the global last-update timestamp plus the
node-key → snapshot dict (as an association list). -/
structure LatestTable where
  timestamp : Option Nat
  nodes : List (String × Snap)

/-- The dict returned by `SnapshotCollector.latest_snapshot`. -/
structure SnapshotView where
  timestamp : Option Nat
  nodes : List Snap
  count : Nat

/-- `SnapshotCollector.latest_snapshot`: the table's snapshot values sorted
by their `name` field, with `count = len(nodes)`. -/
def latestSnapshot (t : LatestTable) : SnapshotView :=
  let ns := (t.nodes.map Prod.snd).mergeSort (fun a b => decide (a.name ≤ b.name))
  { timestamp := t.timestamp, nodes := ns, count := ns.length }

/-- `str(node.get("name", node.get("id", "")))`: the identity key used for
`_node_state` and `_latest["nodes"]`. -/
def nodeKey (n : Node) : String := n.name.getD (n.id.getD "")

/-- The shared state a scheduler tick reconciles: `_node_state` and
`_latest` (both dicts as association lists). -/
structure CollectorState where
  node_state : List (String × NodeState)
  latest : LatestTable

/-- The registry-read and reconciliation part of one iteration of
`SnapshotCollector._run`: on a raising `fetch_nodes` the whole `try` body is
skipped (nothing before the fetch mutates anything), so the state is
returned untouched; on success, stale keys are dropped from `_node_state`
and `_latest["nodes"]`, and fresh keys get a default state via
`setdefault`.  The due-poll dispatch is modelled separately by
`pollStep`/`pollRun`. -/
def tickRegistry (cfg : Config) (cst : CollectorState)
    (fetched : Except String (List Node)) : CollectorState :=
  match fetched with
  | .error _ => cst
  | .ok nodes =>
    let active := nodes.map nodeKey
    let staleKeys := (cst.node_state.map Prod.fst).filter (fun k => ¬ (k ∈ active))
    let kept := cst.node_state.filter (fun kv => kv.1 ∈ active)
    let latestKept := cst.latest.nodes.filter (fun kv => ¬ (kv.1 ∈ staleKeys))
    let node_state :=
      nodes.foldl
        (fun acc n =>
          let k := nodeKey n
          if (acc.lookup k).isSome then acc else acc ++ [(k, initState cfg)])
        kept
    { node_state := node_state
      latest := { timestamp := cst.latest.timestamp, nodes := latestKept } }

/-- The scheduler loop of `_run` over a sequence of registry reads: each
iteration reconciles and sleeps; a raising read is logged and the loop
simply proceeds to the next iteration. -/
def runTicks (cfg : Config) (cst : CollectorState)
    (reads : List (Except String (List Node))) : CollectorState :=
  reads.foldl (tickRegistry cfg) cst

/-! ### Cache tier (`src/backend/main.py`) -/

/-- The `flag_key` values callers pass to `_start_cache_refresh`
("traffic", "online_clients", "clients"). -/
inductive FlagKey
  | traffic
  | online_clients
  | clients
deriving DecidableEq

/-- The `cache_refresh_state` dict: a set of in-flight `group_by` keys for
the traffic cache, and one boolean per other cache class. -/
structure RefreshState where
  traffic : List String
  online_clients : Bool
  clients : Bool
deriving DecidableEq

/-- `cache_refresh_state` as initialized at module load. -/
def initRefreshState : RefreshState :=
  { traffic := [], online_clients := false, clients := false }

/-- Whether a refresh for the given key is currently in flight. -/
def inFlight (st : RefreshState) : FlagKey → Option String → Bool
  | .traffic, none => false
  | .traffic, some wk => wk ∈ st.traffic
  | .online_clients, _ => st.online_clients
  | .clients, _ => st.clients

/-- The flag-check-and-set step of `_start_cache_refresh` (done under
`subscription_rate_lock`): returns the new flag state and whether a
background refresh thread was started.  A falsy `worker_key`
(`None` or `""`) on the traffic path starts nothing. -/
def startCacheRefresh (st : RefreshState) : FlagKey → Option String → RefreshState × Bool
  | .traffic, none => (st, false)
  | .traffic, some wk =>
    if wk = "" then (st, false)
    else if wk ∈ st.traffic then (st, false)
    else ({ st with traffic := wk :: st.traffic }, true)
  | .online_clients, _ =>
    if st.online_clients then (st, false)
    else ({ st with online_clients := true }, true)
  | .clients, _ =>
    if st.clients then (st, false)
    else ({ st with clients := true }, true)

/-- The `finally` block of `_runner` inside `_start_cache_refresh`: discard
the traffic worker key (when truthy) or reset the boolean flag. -/
def finishCacheRefresh (st : RefreshState) : FlagKey → Option String → RefreshState
  | .traffic, none => st
  | .traffic, some wk =>
    if wk = "" then st else { st with traffic := st.traffic.erase wk }
  | .online_clients, _ => { st with online_clients := false }
  | .clients, _ => { st with clients := false }

/-- The whole `_runner` body as it affects the flag state: whether the
worker returned or raised (the `except` logs and falls through), the
`finally` clears the flag. -/
def refreshRunner (st : RefreshState) (k : FlagKey) (wk : Option String)
    (outcome : Except String Unit) : RefreshState :=
  match outcome with
  | .ok _ => finishCacheRefresh st k wk
  | .error _ => finishCacheRefresh st k wk

/-- Flag states reachable from module load: the traffic set never holds
duplicates or the empty key. -/
def RefreshWF (st : RefreshState) : Prop :=
  st.traffic.Nodup ∧ "" ∉ st.traffic

/-- What one cache read returns and does: the payload handed to the caller,
the local cache entry afterwards, the refresh-flag state afterwards,
whether a background refresh was started and whether the value was
recomputed synchronously. -/
structure CacheRead (α : Type) where
  result : α
  localAfter : Option (Int × α)
  refreshAfter : RefreshState
  refreshStarted : Bool
  syncComputed : Bool

/-- `get_cached_traffic_stats`: `redisVal` is what `_redis_get_json`
returned (`none` on a miss, an unreachable client, or any redis error);
`cached` is `traffic_stats_cache.get(group_by)`; `compute` is the oracle
value of `client_mgr.get_traffic_stats(nodes, group_by)`. -/
def getCachedTrafficStats (group_by : String) (freshTtl staleTtl : Int)
    (redisVal : Option α) (now : Int) (cached : Option (Int × α))
    (rst : RefreshState) (compute : α) : CacheRead α :=
  match redisVal with
  | some v =>
    { result := v, localAfter := cached, refreshAfter := rst
      refreshStarted := false, syncComputed := false }
  | none =>
    match cached with
    | some (ts, payload) =>
      if now - ts < freshTtl then
        { result := payload, localAfter := some (ts, payload), refreshAfter := rst
          refreshStarted := false, syncComputed := false }
      else if now - ts < staleTtl then
        let s := startCacheRefresh rst .traffic (some group_by)
        { result := payload, localAfter := some (ts, payload), refreshAfter := s.1
          refreshStarted := s.2, syncComputed := false }
      else
        { result := compute, localAfter := some (now, compute), refreshAfter := rst
          refreshStarted := false, syncComputed := true }
    | none =>
      { result := compute, localAfter := some (now, compute), refreshAfter := rst
        refreshStarted := false, syncComputed := true }

/-- `get_cached_online_clients`: the local cache always exists
(`online_clients_cache` with `ts`/`data`); the redis answer is used only
when it is a JSON list, which the typed `Option (List α)` models; the
stale branch additionally needs a truthy (non-empty) cached list. -/
def getCachedOnlineClients (freshTtl staleTtl : Int)
    (redisVal : Option (List α)) (now ts : Int) (data : List α)
    (rst : RefreshState) (compute : List α) : CacheRead (List α) :=
  match redisVal with
  | some v =>
    { result := v, localAfter := some (ts, data), refreshAfter := rst
      refreshStarted := false, syncComputed := false }
  | none =>
    if now - ts < freshTtl then
      { result := data, localAfter := some (ts, data), refreshAfter := rst
        refreshStarted := false, syncComputed := false }
    else if data.isEmpty = false ∧ now - ts < staleTtl then
      let s := startCacheRefresh rst .online_clients none
      { result := data, localAfter := some (ts, data), refreshAfter := s.1
        refreshStarted := s.2, syncComputed := false }
    else
      { result := compute, localAfter := some (now, compute), refreshAfter := rst
        refreshStarted := false, syncComputed := true }

/-- One entry of the full client roster (`email` plus the rest of the dict,
abstracted into a tag). -/
structure Client where
  email : String
  tag : Nat
deriving DecidableEq

/-- Python's `needle in hay` on strings. -/
def strContains (hay needle : String) : Bool :=
  if needle = "" then true else (hay.splitOn needle).length ≥ 2

/-- The `_apply_filter` closure of `get_cached_clients`: a falsy filter
(`None` or `""`) passes everything through. -/
def applyEmailFilter (email_filter : Option String) (items : List Client) : List Client :=
  if email_filter.getD "" = "" then items
  else items.filter (fun c => strContains c.email.toLower (email_filter.getD "").toLower)

/-- `get_cached_clients`: reads only the in-process `clients_cache` — it
takes no distributed-cache input because the source function performs no
redis read.  Both the fresh and the stale branch require a truthy
(non-empty) cached `full_list`. -/
def getCachedClients (freshTtl staleTtl : Int) (now ts : Int)
    (data : List Client) (rst : RefreshState) (compute : List Client)
    (email_filter : Option String) : CacheRead (List Client) :=
  if data.isEmpty = false ∧ now - ts < freshTtl then
    { result := applyEmailFilter email_filter data, localAfter := some (ts, data)
      refreshAfter := rst, refreshStarted := false, syncComputed := false }
  else if data.isEmpty = false ∧ now - ts < staleTtl then
    let s := startCacheRefresh rst .clients none
    { result := applyEmailFilter email_filter data, localAfter := some (ts, data)
      refreshAfter := s.1, refreshStarted := s.2, syncComputed := false }
  else
    { result := applyEmailFilter email_filter compute, localAfter := some (now, compute)
      refreshAfter := rst, refreshStarted := false, syncComputed := true }

/-- The read the spec prescribes for every cache key class: consult the
distributed cache first and return its value authoritatively, otherwise
behave as the local tier alone.  Stated from the spec's words, for
comparison with the source functions. -/
def specDistributedFirstRead (redisVal : Option α) (localRead : α) : α :=
  match redisVal with
  | some v => v
  | none => localRead

/-- The local tier of the traffic-stats read on its own: the body of
`get_cached_traffic_stats` after the `_redis_get_json` check. -/
def localTrafficRead (group_by : String) (freshTtl staleTtl : Int)
    (now : Int) (cached : Option (Int × α)) (rst : RefreshState)
    (compute : α) : CacheRead α :=
  match cached with
  | some (ts, payload) =>
    if now - ts < freshTtl then
      { result := payload, localAfter := some (ts, payload), refreshAfter := rst
        refreshStarted := false, syncComputed := false }
    else if now - ts < staleTtl then
      let s := startCacheRefresh rst .traffic (some group_by)
      { result := payload, localAfter := some (ts, payload), refreshAfter := s.1
        refreshStarted := s.2, syncComputed := false }
    else
      { result := compute, localAfter := some (now, compute), refreshAfter := rst
        refreshStarted := false, syncComputed := true }
  | none =>
    { result := compute, localAfter := some (now, compute), refreshAfter := rst
      refreshStarted := false, syncComputed := true }

/-- The local tier of the online-clients read on its own: the body of
`get_cached_online_clients` after the `_redis_get_json` check. -/
def localOnlineRead (freshTtl staleTtl : Int) (now ts : Int) (data : List α)
    (rst : RefreshState) (compute : List α) : CacheRead (List α) :=
  if now - ts < freshTtl then
    { result := data, localAfter := some (ts, data), refreshAfter := rst
      refreshStarted := false, syncComputed := false }
  else if data.isEmpty = false ∧ now - ts < staleTtl then
    let s := startCacheRefresh rst .online_clients none
    { result := data, localAfter := some (ts, data), refreshAfter := s.1
      refreshStarted := s.2, syncComputed := false }
  else
    { result := compute, localAfter := some (now, compute), refreshAfter := rst
      refreshStarted := false, syncComputed := true }

/-- Keys for which `_start_cache_refresh` can actually start a worker:
on the traffic path the worker key must be truthy. -/
def validWorkerKey : FlagKey → Option String → Bool
  | .traffic, none => false
  | .traffic, some wk => wk != ""
  | .online_clients, _ => true
  | .clients, _ => true

/-- The per-node states reachable by the collector: the `setdefault`
initial state and anything `_poll_node` produces from a reachable state. -/
inductive Reachable (cfg : Config) : NodeState → Prop
  | init : Reachable cfg (initState cfg)
  | poll (now : Nat) (snap : Snap) {st : NodeState} :
      Reachable cfg st → Reachable cfg (pollStep cfg now st snap).1

/-! ### Concrete inputs used by counterexamples and witnesses -/

/-- A successful snapshot of node `n1`, taken at time 1. -/
def snapObsA : Snap := ⟨"n1", some "1", true, true, 10, 2, 100, 1, none⟩

/-- The same observable content as `snapObsA`, taken at time 2. -/
def snapObsB : Snap := ⟨"n1", some "1", true, true, 10, 2, 100, 2, none⟩

/-- The same observable content as `snapObsA`, taken at time 5. -/
def snapObsC : Snap := ⟨"n1", some "1", true, true, 10, 2, 100, 5, none⟩

/-- An unavailable snapshot, as a failed poll produces. -/
def downSnap : Snap := ⟨"n1", some "1", false, false, 0, 0, 0, 0, some "down"⟩

/-- `mkConfig` with a base interval below the configured floor. -/
def lowBaseConfig : Config := mkConfig 1 60 3 8

/-- A concrete client roster. -/
def rosterA : List Client := [⟨"alice@x", 1⟩]

/-- A second concrete client roster, distinct from `rosterA`. -/
def rosterB : List Client := [⟨"bob@y", 2⟩]

/-! ### Helper lemmas -/

theorem fingerprint_ne_empty (s : Snap) : fingerprint s ≠ "" := by
  intro h
  have h2 := congrArg String.data h
  rw [fingerprint] at h2
  simp [String.data_append] at h2

/-! ### Claim theorems -/

set_option maxRecDepth 8192 in
/-- C1: the claim says equal observable content (identity, availability,
xray flag, cpu, online-client count, traffic total) always yields equal
fingerprints, so such a poll counts as a stable cycle with no change
detected.  The code hashes `json.dumps` of the whole snapshot, whose
`timestamp` entry differs between polls: two snapshots with equal
observable content but timestamps 1 and 2 get different fingerprints, and
polling the second right after the first is detected as a change
(`stable_cycles` reset to 0 and a delta broadcast emitted). -/
theorem fingerprint_covers_timestamp_field :
    obsEq snapObsA snapObsB = true
    ∧ fingerprint snapObsA ≠ fingerprint snapObsB
    ∧ (pollStep defaultConfig 0
        (pollStep defaultConfig 0 (initState defaultConfig) snapObsA).1 snapObsB).2 = true
    ∧ (pollStep defaultConfig 0
        (pollStep defaultConfig 0 (initState defaultConfig) snapObsA).1
          snapObsB).1.stable_cycles = 0 := by
  decide

set_option maxRecDepth 8192 in
/-- C2: the claim says that under successful polls with identical
observable content the interval is non-decreasing and no delta broadcast
fires after the first stable observation.  Because the fingerprint covers
the `timestamp` field, a run of five successful polls with identical
observable content (timestamps 1,1,1,1,5) produces intervals
5,5,5,10,5 — a decrease — and a delta broadcast at the fifth poll even
though polls 2–4 were stable observations. -/
theorem stable_observable_content_not_stable_for_code :
    obsEq snapObsA snapObsC = true
    ∧ ((pollRun defaultConfig 0 (initState defaultConfig)
          [snapObsA, snapObsA, snapObsA, snapObsA, snapObsC]).map
        (fun p => p.1.interval) = [5, 5, 5, 10, 5])
    ∧ ((pollRun defaultConfig 0 (initState defaultConfig)
          [snapObsA, snapObsA, snapObsA, snapObsA, snapObsC]).map
        Prod.snd = [true, false, false, false, true])
    ∧ ¬ List.Sorted (· ≤ ·)
        ((pollRun defaultConfig 0 (initState defaultConfig)
            [snapObsA, snapObsA, snapObsA, snapObsA, snapObsC]).map
          (fun p => p.1.interval)) := by
  decide

/-- C8: `_collect_node_snapshot` is total over every behaviour of the three
panel-client calls (it returns a `Snap`, never propagating an exception),
and whichever call raises first, the returned snapshot has
`available = false` and carries that call's message in its `error` field;
when none raises, `available` mirrors the status answer and no error is
recorded. -/
theorem poll_node_error_capture :
    ∀ (node : Node) (now : Nat),
      (∀ (e : String) (onl : Except String OnlineResp) (tr : Except String TrafficResp),
          (collectNodeSnapshot node now (.error e) onl tr).available = false
          ∧ (collectNodeSnapshot node now (.error e) onl tr).error = some e)
      ∧ (∀ (st : StatusResp) (e : String) (tr : Except String TrafficResp),
          (collectNodeSnapshot node now (.ok st) (.error e) tr).available = false
          ∧ (collectNodeSnapshot node now (.ok st) (.error e) tr).error = some e)
      ∧ (∀ (st : StatusResp) (onl : OnlineResp) (e : String),
          (collectNodeSnapshot node now (.ok st) (.ok onl) (.error e)).available = false
          ∧ (collectNodeSnapshot node now (.ok st) (.ok onl) (.error e)).error = some e)
      ∧ (∀ (st : StatusResp) (onl : OnlineResp) (tr : TrafficResp),
          (collectNodeSnapshot node now (.ok st) (.ok onl) (.ok tr)).available = st.available
          ∧ (collectNodeSnapshot node now (.ok st) (.ok onl) (.ok tr)).error = none) := by
  intro node now
  refine ⟨?_, ?_, ?_, ?_⟩ <;> intros <;>
    simp [collectNodeSnapshot, errorSnapshot]

/-- C9: a raising `fetch_nodes` leaves the tick a no-op — the per-node
state dict and the latest-snapshot table are exactly what they were — and
the loop keeps processing the subsequent ticks. -/
theorem registry_read_failure_leaves_state_untouched :
    ∀ (cfg : Config) (cst : CollectorState) (e : String)
      (rest : List (Except String (List Node))),
      tickRegistry cfg cst (.error e) = cst
      ∧ runTicks cfg cst (.error e :: rest) = runTicks cfg cst rest := by
  intro cfg cst e rest
  exact ⟨rfl, rfl⟩

/-- C4 counterexample: with `base_interval_sec = 5` and
`max_interval_sec = 60`, three consecutive failed polls from a fresh state
yield the interval sequence 10,20,40 — not the claimed 5,10,20 — because
`failures` is incremented before `2 ** min(failures, 4)` is taken; and the
fourth failure yields `min(60, 5 * 2^4) = 60` (the cap), not 40. -/
theorem failure_backoff_scenario_counterexample :
    ((pollRun defaultConfig 0 (initState defaultConfig)
        [downSnap, downSnap, downSnap]).map (fun p => p.1.interval) = [10, 20, 40])
    ∧ ([10, 20, 40] : List Nat) ≠ [5, 10, 20]
    ∧ ((pollRun defaultConfig 0 (initState defaultConfig)
        [downSnap, downSnap, downSnap, downSnap]).map
          (fun p => p.1.interval) = [10, 20, 40, 60])
    ∧ (60 : Nat) ≠ 40 := by
  decide

/-- C4 as amended: with `base_interval_sec = 5` and `max_interval_sec = 60`,
any node failing four consecutive polls gets the interval sequence
10,20,40,60: the n-th failure yields `5 * 2^min(n,4)` capped at 60, so the
fourth failure hits the cap. -/
theorem failure_backoff_scenario (s : Snap) (h : s.available = false) :
    (pollRun defaultConfig 0 (initState defaultConfig)
        [s, s, s, s]).map (fun p => p.1.interval) = [10, 20, 40, 60] := by
  simp [pollRun, pollStep, h, failureUpdate, defaultConfig, mkConfig, initState]

/-- Witness for `failure_backoff_scenario` at a concrete failed snapshot. -/
theorem failure_backoff_scenario_witness :
    (pollRun defaultConfig 0 (initState defaultConfig)
        [downSnap, downSnap, downSnap, downSnap]).map
      (fun p => p.1.interval) = [10, 20, 40, 60] :=
  failure_backoff_scenario downSnap rfl

/-- C5 counterexample: the failure branch computes
`min(max_interval_sec, backoff)` with no floor at `min_interval_sec`.
With `base_interval_sec = 1` and `min_interval_sec = 3` one failure from a
fresh state assigns interval 2, which is below the floor 3 and differs
from the claimed fully clamped value `clamp(1 * 2^min(1,4), 3, 60) = 3`. -/
theorem failure_interval_below_floor_counterexample :
    (failureUpdate lowBaseConfig 0 (initState lowBaseConfig)).interval = 2
    ∧ ¬ (lowBaseConfig.min_interval_sec ≤
          (failureUpdate lowBaseConfig 0 (initState lowBaseConfig)).interval)
    ∧ (failureUpdate lowBaseConfig 0 (initState lowBaseConfig)).interval ≠
        min lowBaseConfig.max_interval_sec
          (max lowBaseConfig.min_interval_sec
            (lowBaseConfig.base_interval_sec
              * 2 ^ min ((initState lowBaseConfig).failures + 1) 4)) := by
  decide

/-- C5 as amended: the interval assigned after each failure equals
`base_interval_sec * 2^min(consecutive_failures, 4)` clamped above at
`max_interval_sec` (no lower clamp), and whenever the normalized
configuration has `min_interval_sec ≤ base_interval_sec` (true for the
defaults), every reachable per-node state keeps its interval within
`[min_interval_sec, max_interval_sec]`. -/
theorem failure_interval_formula_and_bounds :
    (∀ (cfg : Config) (now : Nat) (st : NodeState),
        (failureUpdate cfg now st).interval
          = min cfg.max_interval_sec
              (cfg.base_interval_sec * 2 ^ min (st.failures + 1) 4))
    ∧ (∀ (b M m p : Nat) (st : NodeState),
        (mkConfig b M m p).min_interval_sec ≤ (mkConfig b M m p).base_interval_sec →
        Reachable (mkConfig b M m p) st →
        (mkConfig b M m p).min_interval_sec ≤ st.interval
          ∧ st.interval ≤ (mkConfig b M m p).max_interval_sec) := by
  constructor
  · intro cfg now st
    rfl
  · intro b M m p st hmin hr
    have hbm : (mkConfig b M m p).base_interval_sec
        ≤ (mkConfig b M m p).max_interval_sec := Nat.le_max_left _ _
    induction hr with
    | init => exact ⟨hmin, hbm⟩
    | poll now snap hr ih =>
      rw [pollStep]
      by_cases ha : snap.available
      · rw [if_pos ha]
        refine ⟨Nat.le_min.mpr ⟨hmin.trans hbm, Nat.le_max_left _ _⟩, Nat.min_le_left _ _⟩
      · rw [if_neg ha]
        refine ⟨Nat.le_min.mpr ⟨hmin.trans hbm, ?_⟩, Nat.min_le_left _ _⟩
        exact hmin.trans (Nat.le_mul_of_pos_right _ (Nat.pos_pow_of_pos _ (by decide)))

/-- Witness for `failure_interval_formula_and_bounds` at the default
configuration and its initial state. -/
theorem failure_interval_formula_and_bounds_witness :
    (mkConfig 5 60 3 8).min_interval_sec
        ≤ (initState (mkConfig 5 60 3 8)).interval
    ∧ (initState (mkConfig 5 60 3 8)).interval
        ≤ (mkConfig 5 60 3 8).max_interval_sec :=
  failure_interval_formula_and_bounds.2 5 60 3 8
    (initState (mkConfig 5 60 3 8)) (by decide) Reachable.init

/-- C3: when nine consecutive polls return the identical snapshot value
(the identical content, so equal fingerprints) under the default
configuration (`base_interval_sec = 5`), the stability boosts across the
nine polls are 1,1,1,2,2,2,3,3,3 and the assigned intervals
5,5,5,10,10,10,15,15,15.  The first poll is a change against the empty
initial `last_hash`; each later poll is a stable cycle. -/
theorem nine_stable_polls_boost_and_interval (s : Snap) (h : s.available = true) :
    ((pollRun defaultConfig 0 (initState defaultConfig) (List.replicate 9 s)).map
        (fun p => stableBoost p.1.stable_cycles) = [1, 1, 1, 2, 2, 2, 3, 3, 3])
    ∧ ((pollRun defaultConfig 0 (initState defaultConfig) (List.replicate 9 s)).map
        (fun p => p.1.interval) = [5, 5, 5, 10, 10, 10, 15, 15, 15]) := by
  have hfp : (fingerprint s != "") = true := by
    simp [bne_iff_ne, fingerprint_ne_empty s]
  constructor <;>
    simp [List.replicate, pollRun, pollStep, h, successUpdate, hfp, stableBoost,
      defaultConfig, mkConfig, initState]

/-- Witness for `nine_stable_polls_boost_and_interval` at a concrete
successful snapshot. -/
theorem nine_stable_polls_boost_and_interval_witness :
    ((pollRun defaultConfig 0 (initState defaultConfig)
        (List.replicate 9 snapObsA)).map
        (fun p => stableBoost p.1.stable_cycles) = [1, 1, 1, 2, 2, 2, 3, 3, 3])
    ∧ ((pollRun defaultConfig 0 (initState defaultConfig)
        (List.replicate 9 snapObsA)).map
        (fun p => p.1.interval) = [5, 5, 5, 10, 10, 10, 15, 15, 15]) :=
  nine_stable_polls_boost_and_interval snapObsA rfl

/-- C6: the flag-check-and-set of `_start_cache_refresh` under the lock
guarantees at most one in-flight refresh per key: a start while one is in
flight changes nothing and starts nothing (concurrent stale readers share
the single refresh); a start that does fire was not in flight and is
afterwards; the `finally` of the runner clears the flag identically on
normal return and on a raise, so the key is no longer in flight and a
subsequent start fires again; the well-formedness of the traffic set is
preserved; and a stale traffic-cache hit returns the old cached payload
with exactly the `_start_cache_refresh` flag transition and no synchronous
recomputation. -/
theorem cache_refresh_single_flight :
    ∀ (st : RefreshState) (k : FlagKey) (wk : Option String)
      (outcome : Except String Unit),
      RefreshWF st →
      (inFlight st k wk = true → startCacheRefresh st k wk = (st, false))
      ∧ ((startCacheRefresh st k wk).2 = true →
          inFlight st k wk = false
          ∧ inFlight (startCacheRefresh st k wk).1 k wk = true)
      ∧ inFlight (refreshRunner st k wk outcome) k wk = false
      ∧ refreshRunner st k wk outcome = finishCacheRefresh st k wk
      ∧ RefreshWF (startCacheRefresh st k wk).1
      ∧ RefreshWF (refreshRunner st k wk outcome)
      ∧ (validWorkerKey k wk = true →
          (startCacheRefresh (refreshRunner st k wk outcome) k wk).2 = true)
      ∧ (∀ (α : Type) (gb : String) (fT fS now ts : Int) (p compute : α),
          ¬ (now - ts < fT) → now - ts < fS →
          (getCachedTrafficStats gb fT fS none now (some (ts, p)) st compute).result = p
          ∧ (getCachedTrafficStats gb fT fS none now (some (ts, p)) st compute).refreshAfter
              = (startCacheRefresh st .traffic (some gb)).1
          ∧ (getCachedTrafficStats gb fT fS none now (some (ts, p)) st compute).refreshStarted
              = (startCacheRefresh st .traffic (some gb)).2
          ∧ (getCachedTrafficStats gb fT fS none now (some (ts, p)) st compute).syncComputed
              = false) := by
  intro st k wko outcome hwf
  obtain ⟨hnd, hemp⟩ := hwf
  have hrun : refreshRunner st k wko outcome = finishCacheRefresh st k wko := by
    cases outcome <;> rfl
  refine ⟨?_, ?_, ?_, hrun, ?_, ?_, ?_, ?_⟩
  · intro h
    cases k with
    | traffic =>
      cases wko with
      | none => simp [inFlight] at h
      | some wk =>
        have hm : wk ∈ st.traffic := by simpa [inFlight] using h
        by_cases hwk : wk = "" <;> simp [startCacheRefresh, hwk, hm]
    | online_clients =>
      have hf : st.online_clients = true := by simpa [inFlight] using h
      simp [startCacheRefresh, hf]
    | clients =>
      have hf : st.clients = true := by simpa [inFlight] using h
      simp [startCacheRefresh, hf]
  · intro h
    cases k with
    | traffic =>
      cases wko with
      | none => simp [startCacheRefresh] at h
      | some wk =>
        by_cases hwk : wk = ""
        · simp [startCacheRefresh, hwk] at h
        · by_cases hm : wk ∈ st.traffic
          · simp [startCacheRefresh, hwk, hm] at h
          · simp [inFlight, startCacheRefresh, hwk, hm]
    | online_clients =>
      by_cases hf : st.online_clients
      · simp [startCacheRefresh, hf] at h
      · simp [inFlight, startCacheRefresh, hf]
    | clients =>
      by_cases hf : st.clients
      · simp [startCacheRefresh, hf] at h
      · simp [inFlight, startCacheRefresh, hf]
  · rw [hrun]
    cases k with
    | traffic =>
      cases wko with
      | none => simp [inFlight]
      | some wk =>
        by_cases hwk : wk = ""
        · simp only [finishCacheRefresh, if_pos hwk, inFlight]
          simpa [hwk] using hemp
        · simp [inFlight, finishCacheRefresh, hwk, List.Nodup.not_mem_erase hnd]
    | online_clients => simp [inFlight, finishCacheRefresh]
    | clients => simp [inFlight, finishCacheRefresh]
  · cases k with
    | traffic =>
      cases wko with
      | none => exact ⟨hnd, hemp⟩
      | some wk =>
        by_cases hwk : wk = ""
        · simpa [startCacheRefresh, hwk, RefreshWF] using ⟨hnd, hemp⟩
        · by_cases hm : wk ∈ st.traffic
          · simpa [startCacheRefresh, hwk, hm, RefreshWF] using ⟨hnd, hemp⟩
          · have hwf2 : RefreshWF { st with traffic := wk :: st.traffic } := by
              constructor
              · exact List.nodup_cons.mpr ⟨hm, hnd⟩
              · intro hc
                rcases List.mem_cons.mp hc with he | he
                · exact hwk he.symm
                · exact hemp he
            simpa [startCacheRefresh, hwk, hm] using hwf2
    | online_clients =>
      by_cases hf : st.online_clients <;>
        simpa [startCacheRefresh, hf, RefreshWF] using ⟨hnd, hemp⟩
    | clients =>
      by_cases hf : st.clients <;>
        simpa [startCacheRefresh, hf, RefreshWF] using ⟨hnd, hemp⟩
  · rw [hrun]
    cases k with
    | traffic =>
      cases wko with
      | none => exact ⟨hnd, hemp⟩
      | some wk =>
        by_cases hwk : wk = ""
        · simpa [finishCacheRefresh, hwk, RefreshWF] using ⟨hnd, hemp⟩
        · constructor
          · simpa [finishCacheRefresh, hwk, RefreshWF] using List.Nodup.erase wk hnd
          · simp only [finishCacheRefresh, if_neg hwk, RefreshWF]
            exact fun hc => hemp (List.mem_of_mem_erase hc)
    | online_clients => simpa [finishCacheRefresh, RefreshWF] using ⟨hnd, hemp⟩
    | clients => simpa [finishCacheRefresh, RefreshWF] using ⟨hnd, hemp⟩
  · intro hv
    rw [hrun]
    cases k with
    | traffic =>
      cases wko with
      | none => simp [validWorkerKey] at hv
      | some wk =>
        have hwk : wk ≠ "" := by simpa [validWorkerKey, bne_iff_ne] using hv
        simp [startCacheRefresh, finishCacheRefresh, hwk,
          List.Nodup.not_mem_erase hnd]
    | online_clients => simp [startCacheRefresh, finishCacheRefresh]
    | clients => simp [startCacheRefresh, finishCacheRefresh]
  · intro α gb fT fS now ts pp compute h1 h2
    refine ⟨?_, ?_, ?_, ?_⟩ <;> simp [getCachedTrafficStats, h1, h2]

/-- Witness for `cache_refresh_single_flight`: one worker key in flight,
a raising refresh worker. -/
theorem cache_refresh_single_flight_witness :
    (inFlight ⟨["client"], false, false⟩ FlagKey.traffic (some "client") = true →
        startCacheRefresh ⟨["client"], false, false⟩ FlagKey.traffic (some "client")
          = (⟨["client"], false, false⟩, false))
    ∧ ((startCacheRefresh ⟨["client"], false, false⟩ FlagKey.traffic (some "client")).2 = true →
        inFlight ⟨["client"], false, false⟩ FlagKey.traffic (some "client") = false
        ∧ inFlight (startCacheRefresh ⟨["client"], false, false⟩ FlagKey.traffic
              (some "client")).1 FlagKey.traffic (some "client") = true)
    ∧ inFlight (refreshRunner ⟨["client"], false, false⟩ FlagKey.traffic (some "client")
        (.error "boom")) FlagKey.traffic (some "client") = false
    ∧ refreshRunner ⟨["client"], false, false⟩ FlagKey.traffic (some "client") (.error "boom")
        = finishCacheRefresh ⟨["client"], false, false⟩ FlagKey.traffic (some "client")
    ∧ RefreshWF (startCacheRefresh ⟨["client"], false, false⟩ FlagKey.traffic
        (some "client")).1
    ∧ RefreshWF (refreshRunner ⟨["client"], false, false⟩ FlagKey.traffic (some "client")
        (.error "boom"))
    ∧ (validWorkerKey FlagKey.traffic (some "client") = true →
        (startCacheRefresh (refreshRunner ⟨["client"], false, false⟩ FlagKey.traffic
            (some "client") (.error "boom")) FlagKey.traffic (some "client")).2 = true)
    ∧ (∀ (α : Type) (gb : String) (fT fS now ts : Int) (p compute : α),
        ¬ (now - ts < fT) → now - ts < fS →
        (getCachedTrafficStats gb fT fS none now (some (ts, p))
            ⟨["client"], false, false⟩ compute).result = p
        ∧ (getCachedTrafficStats gb fT fS none now (some (ts, p))
            ⟨["client"], false, false⟩ compute).refreshAfter
            = (startCacheRefresh ⟨["client"], false, false⟩ FlagKey.traffic (some gb)).1
        ∧ (getCachedTrafficStats gb fT fS none now (some (ts, p))
            ⟨["client"], false, false⟩ compute).refreshStarted
            = (startCacheRefresh ⟨["client"], false, false⟩ FlagKey.traffic (some gb)).2
        ∧ (getCachedTrafficStats gb fT fS none now (some (ts, p))
            ⟨["client"], false, false⟩ compute).syncComputed = false) :=
  cache_refresh_single_flight ⟨["client"], false, false⟩ FlagKey.traffic
    (some "client") (.error "boom") ⟨by decide, by decide⟩

/-- C7 counterexample: the full-client-roster read never consults the
distributed cache — `get_cached_clients` performs no redis read at all.
In a state where the distributed cache holds `rosterA` while the local
tier holds a fresh `rosterB` (read at `now = 5`, cached at `ts = 0`,
`fresh_ttl = 20`), the spec-prescribed distributed-first read returns
`rosterA` but the code returns `rosterB`. -/
theorem clients_roster_skips_distributed_cache :
    specDistributedFirstRead (some rosterA)
        ((getCachedClients 20 180 5 0 rosterB initRefreshState rosterB none).result)
      = rosterA
    ∧ (getCachedClients 20 180 5 0 rosterB initRefreshState rosterB none).result
      = rosterB
    ∧ rosterA ≠ rosterB := by
  decide

/-- C7 as amended: the distributed cache is consulted first for the
traffic-stats and online-clients reads — a value it returns is handed back
authoritatively, with no local TTL check, no local mutation, no refresh
and no synchronous recomputation — and when it returns nothing (miss,
unreachable client, or any redis error, all of which `_redis_get_json`
maps to `None`) each read behaves exactly as its local tier alone; the
full client roster read uses only the local tier.  No error is ever
surfaced to the caller (the reads are total). -/
theorem distributed_cache_first_traffic_online :
    (∀ (α : Type) (gb : String) (fT fS : Int) (v compute : α) (now : Int)
        (cached : Option (Int × α)) (rst : RefreshState),
        (getCachedTrafficStats gb fT fS (some v) now cached rst compute).result = v
        ∧ (getCachedTrafficStats gb fT fS (some v) now cached rst compute).localAfter
            = cached
        ∧ (getCachedTrafficStats gb fT fS (some v) now cached rst compute).refreshAfter
            = rst
        ∧ (getCachedTrafficStats gb fT fS (some v) now cached rst compute).refreshStarted
            = false
        ∧ (getCachedTrafficStats gb fT fS (some v) now cached rst compute).syncComputed
            = false)
    ∧ (∀ (α : Type) (fT fS : Int) (v : List α) (now ts : Int) (data compute : List α)
        (rst : RefreshState),
        (getCachedOnlineClients fT fS (some v) now ts data rst compute).result = v
        ∧ (getCachedOnlineClients fT fS (some v) now ts data rst compute).refreshAfter
            = rst
        ∧ (getCachedOnlineClients fT fS (some v) now ts data rst compute).refreshStarted
            = false
        ∧ (getCachedOnlineClients fT fS (some v) now ts data rst compute).syncComputed
            = false)
    ∧ (∀ (α : Type) (gb : String) (fT fS now : Int) (cached : Option (Int × α))
        (rst : RefreshState) (compute : α),
        getCachedTrafficStats gb fT fS none now cached rst compute
          = localTrafficRead gb fT fS now cached rst compute)
    ∧ (∀ (α : Type) (fT fS now ts : Int) (data compute : List α) (rst : RefreshState),
        getCachedOnlineClients fT fS none now ts data rst compute
          = localOnlineRead fT fS now ts data rst compute) := by
  refine ⟨?_, ?_, ?_, ?_⟩ <;> intros <;>
    simp [getCachedTrafficStats, getCachedOnlineClients, localTrafficRead,
      localOnlineRead]

/-- C10: for every state of the latest-snapshot table, `latest_snapshot`
returns the stored global timestamp, the stored snapshots as a list sorted
ascending by `name`, and a `count` equal to that list's length; the
function is total, so the call never raises.  (In this embedding a
collector-produced snapshot always carries a `name` string, so the
`x.get("name", "")` default never fires.) -/
theorem latest_snapshot_sorted_and_counted :
    ∀ (t : LatestTable),
      (latestSnapshot t).timestamp = t.timestamp
      ∧ (latestSnapshot t).count = (latestSnapshot t).nodes.length
      ∧ (latestSnapshot t).nodes.Perm (t.nodes.map Prod.snd)
      ∧ (latestSnapshot t).nodes.Pairwise (fun a b => a.name ≤ b.name) := by
  intro t
  have htrans : ∀ (a b c : Snap), decide (a.name ≤ b.name) = true →
      decide (b.name ≤ c.name) = true → decide (a.name ≤ c.name) = true := by
    intro a b c h1 h2
    simp only [decide_eq_true_eq] at *
    exact le_trans h1 h2
  have htotal : ∀ (a b : Snap),
      (decide (a.name ≤ b.name) || decide (b.name ≤ a.name)) = true := by
    intro a b
    simpa using le_total a.name b.name
  have hs := @List.sorted_mergeSort Snap (fun a b => decide (a.name ≤ b.name))
      htrans htotal (t.nodes.map Prod.snd)
  refine ⟨rfl, rfl, ?_, ?_⟩
  · simp only [latestSnapshot]
    exact List.mergeSort_perm _ _
  · simp only [latestSnapshot]
    exact hs.imp (by intro a b hab; simpa using hab)

end SubGen
